import Mathlib

/-!
Verification of the measurement-stabilization and BMI-classification core of
the bmi-meter firmware (src/main.cpp).

Sensor readings (`float` in the source) are embedded as exact rationals `ℚ`:
every operation the core performs on them (subtraction, absolute value,
comparison against small constants, the BMI formula) is exact arithmetic on
small decimal values, so the rational embedding mirrors the source
computations faithfully.  The displayed integer weight/height (`int` casts of
non-negative floats) are embedded as `ℤ` via `Int.floor`.
-/

namespace BmiMeter

/-! ### Constants (src/main.cpp, lines 24-26) -/

/-- Maximum weight difference for stability (`WEIGHT_TOLERANCE_KG = 2.0`). -/
def WEIGHT_TOLERANCE_KG : ℚ := 2

/-- Maximum height difference for stability (`HEIGHT_TOLERANCE_CM = 3.0`). -/
def HEIGHT_TOLERANCE_CM : ℚ := 3

/-- Number of consecutive stable readings needed (`STABLE_READINGS_REQUIRED = 5`). -/
def STABLE_READINGS_REQUIRED : ℕ := 5

/-! ### Stability tracking (src/main.cpp, lines 133-164) -/

/-- State of `struct StabilityTracker`: `lastWeight`, `lastHeight`,
`stableCount`, `wasStable` (the last field is written but never read by the
logic). -/
structure StabilityTracker where
  lastWeight : ℚ
  lastHeight : ℚ
  stableCount : ℕ
  wasStable : Bool
deriving DecidableEq

/-- Initial state of the global `StabilityTracker stability;` object: all
fields default to zero / `false`. -/
def StabilityTracker.init : StabilityTracker :=
  ⟨0, 0, 0, false⟩

/-- Embedding of `StabilityTracker::reset` (lines 158-163): zero
`stableCount`, clear `lastWeight`/`lastHeight`, clear `wasStable`. -/
def StabilityTracker.reset : StabilityTracker :=
  ⟨0, 0, 0, false⟩

/-- Embedding of `StabilityTracker::checkStability` (lines 139-156).  Returns
the updated tracker state, the `bool` return value (`stableCount >=
STABLE_READINGS_REQUIRED` after the update), and the `movementDetected`
out-parameter. -/
def StabilityTracker.checkStability (t : StabilityTracker)
    (currentWeight currentHeight : ℚ) : StabilityTracker × Bool × Bool :=
  let stable := |currentWeight - t.lastWeight| ≤ WEIGHT_TOLERANCE_KG ∧
                |currentHeight - t.lastHeight| ≤ HEIGHT_TOLERANCE_CM
  if stable then
    let t' := { t with stableCount := t.stableCount + 1,
                       lastWeight := currentWeight, lastHeight := currentHeight }
    (t', decide (t'.stableCount ≥ STABLE_READINGS_REQUIRED), false)
  else
    let t' := { t with stableCount := 0,
                       lastWeight := currentWeight, lastHeight := currentHeight }
    (t', decide (t'.stableCount ≥ STABLE_READINGS_REQUIRED), true)

/-! ### The polling loop's verdict (src/main.cpp, lines 189-239) -/

/-- The four mutually exclusive outcomes of one `loop()` iteration, one per
display intent: the "Stoupni si na vahu" prompt (absent/invalid sample), the
"Stuj klidne a rovne" prompt (movement detected), the "Probiha mereni..."
prompt (settling), and the BMI result display (stable). -/
inductive Verdict where
  | AbsentOrInvalid
  | Moving
  | Settling
  | Stable
deriving DecidableEq

/-- Embedding of the decision structure of `loop()` (lines 200-226) for one
poll with measured `currentWeight` / `currentHeight`: the presence check
(`currentWeight < 10 || currentHeight < 100` resets the tracker and prompts),
then `checkStability`, branching on `movementDetected` and the stability
result.  Returns the updated tracker state and the verdict. -/
def loopStep (t : StabilityTracker) (currentWeight currentHeight : ℚ) :
    StabilityTracker × Verdict :=
  if currentWeight < 10 ∨ currentHeight < 100 then
    (StabilityTracker.reset, Verdict.AbsentOrInvalid)
  else
    let r := t.checkStability currentWeight currentHeight
    if r.2.2 then (r.1, Verdict.Moving)
    else if !r.2.1 then (r.1, Verdict.Settling)
    else (r.1, Verdict.Stable)

/-- Verdicts produced by running `loop()` once per sample of a list of
`(weight, height)` samples, threading the tracker state. -/
def pollRun : StabilityTracker → List (ℚ × ℚ) → List Verdict
  | _, [] => []
  | t, s :: ss => (loopStep t s.1 s.2).2 :: pollRun (loopStep t s.1 s.2).1 ss

/-! ### BMI classification (src/main.cpp, lines 48-62, 89-99, 125-129) -/

/-- The four BMI categories; the source displays the Czech words `bmi_words =
{"podvaha", "v norme", "nadvaha", "obezita"}` indexed 0-3. -/
inductive Category where
  | Underweight
  | Normal
  | Overweight
  | Obese
deriving DecidableEq

/-- The category word selected by index (the source's `bmi_words[index]`). -/
def bmi_words : ℕ → Category
  | 0 => Category.Underweight
  | 1 => Category.Normal
  | 2 => Category.Overweight
  | _ => Category.Obese

/-- The threshold table `bmi_values[6][3]` (lines 55-62): six height bands,
each holding three ascending BMI cut points.  Indices beyond 5 never occur
(the band index is always ≤ 5); the catch-all pattern returns row 5. -/
def bmi_values : ℕ → ℚ × ℚ × ℚ
  | 0 => (13.0, 16.5, 18.0)
  | 1 => (13.5, 18.0, 20.0)
  | 2 => (14.0, 19.5, 22.5)
  | 3 => (15.5, 22.5, 25.0)
  | 4 => (17.0, 24.0, 28.0)
  | _ + 5 => (19.0, 25.0, 30.0)

/-- The height breakpoints `height_groups[5] = {115, 130, 145, 155, 165}`
local to `BMI_Display::getHeightIndex` (line 126). -/
def height_groups : List ℤ := [115, 130, 145, 155, 165]

/-- The scan loop of `BMI_Display::getHeightIndex` (lines 125-129):
`for(int i=0; i<5; ++i) if (height < height_groups[i]) return i; return 5;`,
with the loop counter as an accumulator. -/
def getHeightIndexGo (height : ℤ) : List ℤ → ℕ → ℕ
  | [], i => i
  | g :: gs, i => if height < g then i else getHeightIndexGo height gs (i + 1)

/-- Embedding of `BMI_Display::getHeightIndex`. -/
def getHeightIndex (height : ℤ) : ℕ :=
  getHeightIndexGo height height_groups 0

/-- The category-index selection of `BMI_Display::updateBMI` (lines 94-97):
`int index = 0; if(bmi > v[i][0]) index = 1; if(bmi > v[i][1]) index = 2;
if(bmi > v[i][2]) index = 3;`. -/
def categoryIndex (bmi : ℚ) (c : ℚ × ℚ × ℚ) : ℕ :=
  let index : ℕ := 0
  let index := if bmi > c.1 then 1 else index
  let index := if bmi > c.2.1 then 2 else index
  let index := if bmi > c.2.2 then 3 else index
  index

/-- Result of one classification: the computed BMI value, the selected height
band index, and the displayed category word. -/
structure BmiResult where
  bmi : ℚ
  bandIndex : ℕ
  category : Category
deriving DecidableEq

/-- Embedding of `BMI_Display::updateBMI` (lines 89-99): `bmi = 10000.0 *
weight / height / height`, band lookup via `getHeightIndex`, category via the
sequential comparisons against `bmi_values[i]`.  Arguments are the integer
`weight` / `height` members of `BMI_Display` (the spec's `classify(height_cm,
weight_kg)` with arguments swapped). -/
def updateBMI (weight height : ℤ) : BmiResult :=
  let bmi : ℚ := 10000 * (weight : ℚ) / (height : ℚ) / (height : ℚ)
  let i := getHeightIndex height
  ⟨bmi, i, bmi_words (categoryIndex bmi (bmi_values i))⟩

/-- Error kind of the spec's defensive classifier contract. -/
inductive ClassifyError where
  | InvalidInput
deriving DecidableEq

/-- Modelled from the spec: the defensively guarded `classify` that the spec's
error-handling section describes ("height ≤ 0 passed to classify ... fail
with a InvalidInput error kind"); the source's `updateBMI` has no such guard,
so this definition exists only to be compared with `updateBMI`. -/
def classifyGuarded (weight height : ℤ) : Except ClassifyError BmiResult :=
  if height ≤ 0 then Except.error ClassifyError.InvalidInput
  else Except.ok (updateBMI weight height)

/-- Validity of one sample per `loop()`'s presence check: a sample passes when
`weight ≥ 10` and `height ≥ 100`. -/
def validSample (s : ℚ × ℚ) : Bool :=
  decide (10 ≤ s.1) && decide (100 ≤ s.2)

/-- The sample is within both stability tolerances of the tracker's stored
previous sample. -/
def inTolerance (t : StabilityTracker) (s : ℚ × ℚ) : Bool :=
  decide (|s.1 - t.lastWeight| ≤ WEIGHT_TOLERANCE_KG) &&
  decide (|s.2 - t.lastHeight| ≤ HEIGHT_TOLERANCE_CM)

/-- A run of samples in which every sample is valid and within tolerance of
the immediately preceding sample (the tracker's stored sample for the head). -/
def goodChain : StabilityTracker → List (ℚ × ℚ) → Bool
  | _, [] => true
  | t, s :: ss => validSample s && inTolerance t s && goodChain (loopStep t s.1 s.2).1 ss

/-! ### Branch lemmas for one poll -/

/-- When the sample is within both tolerances of the stored previous sample,
`checkStability` increments `stableCount`, stores the sample, reports no
movement, and returns whether the new count reached the threshold. -/
lemma checkStability_of_stable (t : StabilityTracker) (w h : ℚ)
    (h1 : |w - t.lastWeight| ≤ WEIGHT_TOLERANCE_KG)
    (h2 : |h - t.lastHeight| ≤ HEIGHT_TOLERANCE_CM) :
    t.checkStability w h =
      ({ t with stableCount := t.stableCount + 1, lastWeight := w, lastHeight := h },
       decide (t.stableCount + 1 ≥ STABLE_READINGS_REQUIRED), false) := by
  simp only [StabilityTracker.checkStability]
  rw [if_pos ⟨h1, h2⟩]

/-- When the sample exceeds a tolerance, `checkStability` zeroes
`stableCount`, stores the sample, and reports movement. -/
lemma checkStability_of_unstable (t : StabilityTracker) (w h : ℚ)
    (hmv : ¬(|w - t.lastWeight| ≤ WEIGHT_TOLERANCE_KG ∧
             |h - t.lastHeight| ≤ HEIGHT_TOLERANCE_CM)) :
    t.checkStability w h =
      ({ t with stableCount := 0, lastWeight := w, lastHeight := h },
       decide ((0 : ℕ) ≥ STABLE_READINGS_REQUIRED), true) := by
  simp only [StabilityTracker.checkStability]
  rw [if_neg hmv]

/-- One poll of a valid, in-tolerance sample: the count increments, the
sample is stored, and the verdict is `Stable` once the incremented count
reaches the threshold and `Settling` before. -/
lemma loopStep_of_inTol (t : StabilityTracker) (w h : ℚ)
    (hw : 10 ≤ w) (hh : 100 ≤ h)
    (h1 : |w - t.lastWeight| ≤ WEIGHT_TOLERANCE_KG)
    (h2 : |h - t.lastHeight| ≤ HEIGHT_TOLERANCE_CM) :
    loopStep t w h =
      ({ t with stableCount := t.stableCount + 1, lastWeight := w, lastHeight := h },
       if t.stableCount + 1 ≥ STABLE_READINGS_REQUIRED then Verdict.Stable
       else Verdict.Settling) := by
  have hv : ¬(w < 10 ∨ h < 100) := by push_neg; exact ⟨hw, hh⟩
  simp only [loopStep]
  rw [if_neg hv, checkStability_of_stable t w h h1 h2]
  by_cases hc : t.stableCount + 1 ≥ STABLE_READINGS_REQUIRED <;> simp [hc]

/-- One poll of a valid sample that exceeds a tolerance: the count is zeroed,
the sample is stored, and the verdict is `Moving`. -/
lemma loopStep_of_move (t : StabilityTracker) (w h : ℚ)
    (hw : 10 ≤ w) (hh : 100 ≤ h)
    (hmv : WEIGHT_TOLERANCE_KG < |w - t.lastWeight| ∨
           HEIGHT_TOLERANCE_CM < |h - t.lastHeight|) :
    loopStep t w h =
      ({ t with stableCount := 0, lastWeight := w, lastHeight := h },
       Verdict.Moving) := by
  have hv : ¬(w < 10 ∨ h < 100) := by push_neg; exact ⟨hw, hh⟩
  have hst : ¬(|w - t.lastWeight| ≤ WEIGHT_TOLERANCE_KG ∧
               |h - t.lastHeight| ≤ HEIGHT_TOLERANCE_CM) := by
    rw [not_and_or, not_le, not_le]
    exact hmv
  simp only [loopStep]
  rw [if_neg hv, checkStability_of_unstable t w h hst]
  simp [STABLE_READINGS_REQUIRED]

/-- One poll of an absent/invalid sample resets the tracker and returns the
absent verdict, regardless of the prior state. -/
lemma loopStep_of_absent (t : StabilityTracker) (w h : ℚ)
    (hwh : w < 10 ∨ h < 100) :
    loopStep t w h = (StabilityTracker.reset, Verdict.AbsentOrInvalid) := by
  simp only [loopStep]
  rw [if_pos hwh]

/-! ### Claim theorems -/

/-- C1: for every poll whose sample has `weight_kg < 10` or `height_cm <
100`, regardless of the tracker's prior state, the evaluation returns
`AbsentOrInvalid` and the tracker is reset: `stableCount` becomes 0 and the
last sample is cleared to zero; this short-circuits before the movement and
stability checks, so it takes priority over them. -/
theorem absent_resets_tracker (t : StabilityTracker) (w h : ℚ)
    (hwh : w < 10 ∨ h < 100) :
    (loopStep t w h).2 = Verdict.AbsentOrInvalid ∧
    (loopStep t w h).1 = StabilityTracker.reset ∧
    (loopStep t w h).1.stableCount = 0 ∧
    (loopStep t w h).1.lastWeight = 0 ∧
    (loopStep t w h).1.lastHeight = 0 := by
  rw [loopStep_of_absent t w h hwh]
  exact ⟨rfl, rfl, rfl, rfl, rfl⟩

/-- Witness for C1: a sample of weight 5 kg and height 200 cm, against a
tracker that had accumulated 3 stable readings, yields the absent verdict and
a fully reset tracker. -/
theorem absent_resets_tracker_witness :
    ((5 : ℚ) < 10 ∨ (200 : ℚ) < 100) ∧
    ((loopStep ⟨7, 150, 3, true⟩ 5 200).2 = Verdict.AbsentOrInvalid ∧
     (loopStep ⟨7, 150, 3, true⟩ 5 200).1 = StabilityTracker.reset ∧
     (loopStep ⟨7, 150, 3, true⟩ 5 200).1.stableCount = 0 ∧
     (loopStep ⟨7, 150, 3, true⟩ 5 200).1.lastWeight = 0 ∧
     (loopStep ⟨7, 150, 3, true⟩ 5 200).1.lastHeight = 0) :=
  ⟨Or.inl (by norm_num),
   absent_resets_tracker ⟨7, 150, 3, true⟩ 5 200 (Or.inl (by norm_num))⟩

/-- C4: every valid sample (`weight ≥ 10`, `height ≥ 100`) that differs from
the stored previous sample by more than `HEIGHT_TOLERANCE_CM` in height or
more than `WEIGHT_TOLERANCE_KG` in weight yields the `Moving` verdict, resets
`stableCount` to 0, and updates the stored sample to the current one — for
every prior tracker state, in particular immediately after a `Stable`
verdict (any `stableCount`). -/
theorem moving_on_deviation (t : StabilityTracker) (w h : ℚ)
    (hw : 10 ≤ w) (hh : 100 ≤ h)
    (hmv : HEIGHT_TOLERANCE_CM < |h - t.lastHeight| ∨
           WEIGHT_TOLERANCE_KG < |w - t.lastWeight|) :
    (loopStep t w h).2 = Verdict.Moving ∧
    (loopStep t w h).1.stableCount = 0 ∧
    (loopStep t w h).1.lastWeight = w ∧
    (loopStep t w h).1.lastHeight = h := by
  rw [loopStep_of_move t w h hw hh hmv.symm]
  exact ⟨rfl, rfl, rfl, rfl⟩

/-- Witness for C4: a tracker in the confirmed-stable state (count 7, last
sample 40 kg / 150 cm) fed 50 kg / 150 cm — a 10 kg jump — moves and resets. -/
theorem moving_on_deviation_witness :
    ((10 : ℚ) ≤ 50 ∧ (100 : ℚ) ≤ 150 ∧
     WEIGHT_TOLERANCE_KG < |(50 : ℚ) - (40 : ℚ)|) ∧
    ((loopStep ⟨40, 150, 7, false⟩ 50 150).2 = Verdict.Moving ∧
     (loopStep ⟨40, 150, 7, false⟩ 50 150).1.stableCount = 0 ∧
     (loopStep ⟨40, 150, 7, false⟩ 50 150).1.lastWeight = 50 ∧
     (loopStep ⟨40, 150, 7, false⟩ 50 150).1.lastHeight = 150) :=
  ⟨⟨by norm_num, by norm_num, by with_unfolding_all decide⟩,
   moving_on_deviation ⟨40, 150, 7, false⟩ 50 150 (by norm_num) (by norm_num)
     (Or.inr (by with_unfolding_all decide))⟩

/-- C10 (implicit): `reset` clears the stored sample to `(0, 0)`, and every
valid sample has `weight ≥ 10`, which exceeds the 2 kg weight tolerance
relative to 0 — so the first valid poll after any reset (and hence after any
`AbsentOrInvalid` verdict) yields the `Moving` verdict with `stableCount = 0`;
`Settling` and `Stable` are impossible on that poll. -/
theorem first_valid_poll_after_reset_moves (w h : ℚ)
    (hw : 10 ≤ w) (hh : 100 ≤ h) :
    loopStep StabilityTracker.reset w h = (⟨w, h, 0, false⟩, Verdict.Moving) ∧
    (loopStep StabilityTracker.reset w h).2 ≠ Verdict.Settling ∧
    (loopStep StabilityTracker.reset w h).2 ≠ Verdict.Stable := by
  have hmv : WEIGHT_TOLERANCE_KG < |w - StabilityTracker.reset.lastWeight| ∨
      HEIGHT_TOLERANCE_CM < |h - StabilityTracker.reset.lastHeight| := by
    left
    have h0 : StabilityTracker.reset.lastWeight = 0 := rfl
    rw [h0, sub_zero, abs_of_nonneg (by linarith : (0 : ℚ) ≤ w)]
    unfold WEIGHT_TOLERANCE_KG
    linarith
  have hstep := loopStep_of_move StabilityTracker.reset w h hw hh hmv
  rw [hstep]
  exact ⟨rfl, by simp, by simp⟩

/-- Witness for C10: the first valid sample (40 kg, 150 cm) fed to a freshly
reset tracker produces `Moving` with a zero count. -/
theorem first_valid_poll_after_reset_moves_witness :
    ((10 : ℚ) ≤ 40 ∧ (100 : ℚ) ≤ 150) ∧
    (loopStep StabilityTracker.reset 40 150 = (⟨40, 150, 0, false⟩, Verdict.Moving) ∧
     (loopStep StabilityTracker.reset 40 150).2 ≠ Verdict.Settling ∧
     (loopStep StabilityTracker.reset 40 150).2 ≠ Verdict.Stable) :=
  ⟨⟨by norm_num, by norm_num⟩,
   first_valid_poll_after_reset_moves 40 150 (by norm_num) (by norm_num)⟩

/-- Along a run of valid, in-tolerance samples, the `i`-th verdict is
`Settling` while the accumulated count stays below the threshold and `Stable`
from then on: the verdict at position `i` (0-based) depends only on the
count the tracker entered the run with. -/
lemma pollRun_goodChain :
    ∀ (ss : List (ℚ × ℚ)) (t : StabilityTracker), goodChain t ss = true →
    ∀ i, i < ss.length →
    (pollRun t ss).getD i Verdict.AbsentOrInvalid =
      if t.stableCount + i + 1 < STABLE_READINGS_REQUIRED then Verdict.Settling
      else Verdict.Stable := by
  intro ss
  induction ss with
  | nil => intro t _ i hi; simp at hi
  | cons s ss ih =>
    intro t hg i hi
    simp only [goodChain, Bool.and_eq_true] at hg
    obtain ⟨⟨hv, htol⟩, hrest⟩ := hg
    simp only [validSample, Bool.and_eq_true, decide_eq_true_eq] at hv
    simp only [inTolerance, Bool.and_eq_true, decide_eq_true_eq] at htol
    have hstep := loopStep_of_inTol t s.1 s.2 hv.1 hv.2 htol.1 htol.2
    have hcnt : (loopStep t s.1 s.2).1.stableCount = t.stableCount + 1 := by
      rw [hstep]
    cases i with
    | zero =>
      have hverd : (loopStep t s.1 s.2).2 =
          if t.stableCount + 1 ≥ STABLE_READINGS_REQUIRED then Verdict.Stable
          else Verdict.Settling := by
        rw [hstep]
      simp only [pollRun, List.getD_cons_zero]
      rw [hverd]
      by_cases h5 : t.stableCount + 1 ≥ STABLE_READINGS_REQUIRED
      · rw [if_pos h5, if_neg (by omega)]
      · rw [if_neg h5, if_pos (by omega)]
    | succ i =>
      have hlen : i < ss.length := by
        simpa using Nat.lt_of_succ_lt_succ hi
      have hrec := ih (loopStep t s.1 s.2).1 hrest i hlen
      rw [hcnt] at hrec
      simp only [pollRun, List.getD_cons_succ]
      rw [hrec]
      have harith : t.stableCount + 1 + i + 1 = t.stableCount + (i + 1) + 1 := by
        omega
      rw [harith]

/-- C2: starting from any tracker whose `stableCount` is 0 (the state left by
a reset or by a `Moving` poll), a run of consecutive valid samples, each
within tolerance of the immediately preceding sample, yields `Settling` on
the first four polls and the first `Stable` on the 5th
(`STABLE_READINGS_REQUIRED`-th) consecutive in-tolerance sample; any shorter
in-tolerance run yields only `Settling` verdicts. -/
theorem first_stable_on_fifth_sample (t : StabilityTracker) (ss : List (ℚ × ℚ))
    (h0 : t.stableCount = 0) (hc : goodChain t ss = true)
    (i : ℕ) (hi : i < ss.length) :
    (pollRun t ss).getD i Verdict.AbsentOrInvalid =
      if i + 1 < STABLE_READINGS_REQUIRED then Verdict.Settling
      else Verdict.Stable := by
  have hrec := pollRun_goodChain ss t hc i hi
  rw [h0] at hrec
  simpa using hrec

/-- Witness for C2: a tracker with count 0 and stored sample 40 kg / 150 cm
fed five identical samples; the 5th poll (index 4) is the first `Stable`. -/
theorem first_stable_on_fifth_sample_witness :
    ((⟨40, 150, 0, false⟩ : StabilityTracker).stableCount = 0 ∧
     goodChain ⟨40, 150, 0, false⟩ (List.replicate 5 (40, 150)) = true ∧
     4 < (List.replicate 5 ((40 : ℚ), (150 : ℚ))).length) ∧
    (pollRun ⟨40, 150, 0, false⟩ (List.replicate 5 (40, 150))).getD 4
        Verdict.AbsentOrInvalid =
      if 4 + 1 < STABLE_READINGS_REQUIRED then Verdict.Settling
      else Verdict.Stable :=
  ⟨⟨rfl, by with_unfolding_all decide, by decide⟩,
   first_stable_on_fifth_sample ⟨40, 150, 0, false⟩
     (List.replicate 5 (40, 150)) rfl (by with_unfolding_all decide) 4 (by decide)⟩

/-- C7: a `Stable` verdict never resets the count — once `stableCount` has
reached `STABLE_READINGS_REQUIRED`, a valid in-tolerance poll increments the
count (keeping it at or above the threshold) and returns `Stable` again, and
the only verdicts that can end this state are `Moving` and
`AbsentOrInvalid`. -/
theorem stable_state_persists (t : StabilityTracker) (w h : ℚ)
    (h5 : STABLE_READINGS_REQUIRED ≤ t.stableCount) :
    (10 ≤ w → 100 ≤ h →
     |w - t.lastWeight| ≤ WEIGHT_TOLERANCE_KG →
     |h - t.lastHeight| ≤ HEIGHT_TOLERANCE_CM →
     (loopStep t w h).2 = Verdict.Stable ∧
     (loopStep t w h).1.stableCount = t.stableCount + 1 ∧
     STABLE_READINGS_REQUIRED ≤ (loopStep t w h).1.stableCount) ∧
    ((loopStep t w h).2 ≠ Verdict.Stable →
     (loopStep t w h).2 = Verdict.Moving ∨
     (loopStep t w h).2 = Verdict.AbsentOrInvalid) := by
  constructor
  · intro hw hh h1 h2
    rw [loopStep_of_inTol t w h hw hh h1 h2]
    refine ⟨?_, rfl, ?_⟩
    · show (if _ then _ else _) = _
      rw [if_pos (show t.stableCount + 1 ≥ STABLE_READINGS_REQUIRED by omega)]
    · show STABLE_READINGS_REQUIRED ≤ t.stableCount + 1
      omega
  · intro hne
    by_cases habs : w < 10 ∨ h < 100
    · exact Or.inr (by rw [loopStep_of_absent t w h habs])
    · push_neg at habs
      by_cases hst : |w - t.lastWeight| ≤ WEIGHT_TOLERANCE_KG ∧
          |h - t.lastHeight| ≤ HEIGHT_TOLERANCE_CM
      · exfalso
        apply hne
        rw [loopStep_of_inTol t w h habs.1 habs.2 hst.1 hst.2]
        show (if _ then _ else _) = _
        rw [if_pos (show t.stableCount + 1 ≥ STABLE_READINGS_REQUIRED by omega)]
      · rw [not_and_or, not_le, not_le] at hst
        exact Or.inl (by rw [loopStep_of_move t w h habs.1 habs.2 hst])

/-- Witness for C7: a confirmed tracker (count 5, last sample 40 kg / 150 cm)
fed the in-tolerance sample 41 kg / 151 cm stays `Stable` with count 6. -/
theorem stable_state_persists_witness :
    (STABLE_READINGS_REQUIRED ≤ (5 : ℕ) ∧ (10 : ℚ) ≤ 41 ∧ (100 : ℚ) ≤ 151) ∧
    ((loopStep ⟨40, 150, 5, false⟩ 41 151).2 = Verdict.Stable ∧
     (loopStep ⟨40, 150, 5, false⟩ 41 151).1.stableCount = 5 + 1 ∧
     STABLE_READINGS_REQUIRED ≤ (loopStep ⟨40, 150, 5, false⟩ 41 151).1.stableCount) :=
  ⟨⟨by decide, by norm_num, by norm_num⟩,
   (stable_state_persists ⟨40, 150, 5, false⟩ 41 151 (by decide)).1
     (by norm_num) (by norm_num) (by with_unfolding_all decide)
     (by with_unfolding_all decide)⟩

/-- C8: across one poll, a `Settling` or `Stable` verdict means `stableCount`
rose by exactly 1; contrapositively, `stableCount` can only drop when the
poll's verdict is `Moving` or `AbsentOrInvalid` — so over any run of
consecutive `Settling`/`Stable` polls the count is strictly increasing, hence
non-decreasing. -/
theorem stableCount_monotone (t : StabilityTracker) (w h : ℚ) :
    ((loopStep t w h).2 = Verdict.Settling ∨ (loopStep t w h).2 = Verdict.Stable →
     (loopStep t w h).1.stableCount = t.stableCount + 1) ∧
    ((loopStep t w h).1.stableCount < t.stableCount →
     (loopStep t w h).2 = Verdict.Moving ∨
     (loopStep t w h).2 = Verdict.AbsentOrInvalid) := by
  by_cases habs : w < 10 ∨ h < 100
  · rw [loopStep_of_absent t w h habs]
    constructor
    · rintro (hcon | hcon) <;> simp at hcon
    · intro _
      exact Or.inr rfl
  · push_neg at habs
    by_cases hst : |w - t.lastWeight| ≤ WEIGHT_TOLERANCE_KG ∧
        |h - t.lastHeight| ≤ HEIGHT_TOLERANCE_CM
    · rw [loopStep_of_inTol t w h habs.1 habs.2 hst.1 hst.2]
      constructor
      · exact fun _ => rfl
      · intro hlt
        exfalso
        have hlt' : t.stableCount + 1 < t.stableCount := hlt
        omega
    · rw [not_and_or, not_le, not_le] at hst
      rw [loopStep_of_move t w h habs.1 habs.2 hst]
      constructor
      · rintro (hcon | hcon) <;> simp at hcon
      · intro _
        exact Or.inl rfl

/-- Witness for C8: a tracker with count 2 fed its own stored sample settles
and the count rises to exactly 3. -/
theorem stableCount_monotone_witness :
    (loopStep ⟨40, 150, 2, false⟩ 40 150).2 = Verdict.Settling ∧
    (loopStep ⟨40, 150, 2, false⟩ 40 150).1.stableCount = 2 + 1 :=
  ⟨by with_unfolding_all decide,
   (stableCount_monotone ⟨40, 150, 2, false⟩ 40 150).1
     (Or.inl (by with_unfolding_all decide))⟩

/-- Counterexample to C3: after a reset the stored sample is `(0, 0)`, so the
first valid sample 22.5 kg / 120 cm deviates by far more than the 2 kg weight
tolerance and polls as `Moving`; five identical samples therefore yield
`Moving, Settling, Settling, Settling, Settling` — not the claimed
`Settling, Settling, Settling, Settling, Stable`. -/
theorem five_after_reset_counterexample :
    pollRun StabilityTracker.reset (List.replicate 5 (22.5, 120)) =
      [Verdict.Moving, Verdict.Settling, Verdict.Settling, Verdict.Settling,
       Verdict.Settling] ∧
    pollRun StabilityTracker.reset (List.replicate 5 (22.5, 120)) ≠
      [Verdict.Settling, Verdict.Settling, Verdict.Settling, Verdict.Settling,
       Verdict.Stable] := by
  with_unfolding_all decide

/-- C3 (amended): starting from a freshly reset tracker, feeding the
identical valid sample (height 120 cm, weight 22.5 kg) six times in a row
produces the verdict sequence `Moving, Settling, Settling, Settling,
Settling, Stable` — the first poll is `Moving` (the cleared last sample reads
as zero), and the first `Stable` arrives on the 5th in-tolerance sample,
which is the 6th poll. -/
theorem six_identical_samples_after_reset :
    pollRun StabilityTracker.reset (List.replicate 6 (22.5, 120)) =
      [Verdict.Moving, Verdict.Settling, Verdict.Settling, Verdict.Settling,
       Verdict.Settling, Verdict.Stable] := by
  with_unfolding_all decide

/-- Each row of the threshold table is ascending: cut point 0 ≤ cut point 1 ≤
cut point 2, for every band index (the catch-all row included). -/
lemma bmi_values_ascending (i : ℕ) :
    (bmi_values i).1 ≤ (bmi_values i).2.1 ∧
    (bmi_values i).2.1 ≤ (bmi_values i).2.2 := by
  rcases i with _ | _ | _ | _ | _ | i <;>
    exact ⟨by norm_num [bmi_values], by norm_num [bmi_values]⟩

/-- The sequential overwrite `index = 0; if (bmi > c0) index = 1; ...` of the
source, composed with the word table, is the four-way comparison with ties
resolving to the lower category, provided the row is ascending. -/
lemma categoryIndex_words (b : ℚ) (c : ℚ × ℚ × ℚ)
    (h01 : c.1 ≤ c.2.1) (h12 : c.2.1 ≤ c.2.2) :
    bmi_words (categoryIndex b c) =
      if b ≤ c.1 then Category.Underweight
      else if b ≤ c.2.1 then Category.Normal
      else if b ≤ c.2.2 then Category.Overweight
      else Category.Obese := by
  simp only [categoryIndex]
  split_ifs <;> first | rfl | (exfalso; linarith)

/-- C5: `updateBMI` computes `bmi = 10000 * weight / height / height`, and
selects the category by comparing the BMI against the chosen band's three
ascending cut points with ties resolving to the lower category; in
particular height 120 cm / weight 22 kg yields band index 1 with cut points
`(13.5, 18.0, 20.0)`, category `Normal`, and a BMI within 0.01 of 15.28. -/
theorem updateBMI_spec :
    (∀ (w h : ℤ),
      (updateBMI w h).bmi = 10000 * (w : ℚ) / (h : ℚ) / (h : ℚ) ∧
      (updateBMI w h).category =
        (if (updateBMI w h).bmi ≤ (bmi_values (getHeightIndex h)).1 then
           Category.Underweight
         else if (updateBMI w h).bmi ≤ (bmi_values (getHeightIndex h)).2.1 then
           Category.Normal
         else if (updateBMI w h).bmi ≤ (bmi_values (getHeightIndex h)).2.2 then
           Category.Overweight
         else Category.Obese)) ∧
    (updateBMI 22 120).bandIndex = 1 ∧
    bmi_values 1 = (13.5, 18.0, 20.0) ∧
    (updateBMI 22 120).category = Category.Normal ∧
    |(updateBMI 22 120).bmi - 15.28| < 1 / 100 := by
  refine ⟨fun w h => ⟨rfl, ?_⟩, ?_, ?_, ?_, ?_⟩
  · have hs := bmi_values_ascending (getHeightIndex h)
    exact categoryIndex_words _ _ hs.1 hs.2
  · with_unfolding_all decide
  · with_unfolding_all decide
  · with_unfolding_all decide
  · with_unfolding_all decide

/-- C6: the selected height band index is the position of the first
breakpoint in `{115, 130, 145, 155, 165}` strictly greater than the height
(`List.findIdx` returns the list's length, 5, when the height meets or
exceeds every breakpoint); height 115 routes to band 1, height 114 to
band 0. -/
theorem getHeightIndex_spec :
    (∀ h : ℤ, getHeightIndex h =
      List.findIdx (fun g => decide (h < g)) height_groups) ∧
    getHeightIndex 115 = 1 ∧ getHeightIndex 114 = 0 := by
  refine ⟨?_, by decide, by decide⟩
  intro h
  simp only [getHeightIndex, getHeightIndexGo, height_groups, List.findIdx_cons,
    List.findIdx_nil, Bool.cond_eq_ite, decide_eq_true_eq]
  split_ifs <;> rfl

/-- Counterexample to C9: the source's classifier has no defensive guard — at
height 0 it performs the (rational-semantics) division and returns an
ordinary result with a category, whereas the guarded classifier the claim
describes fails with `InvalidInput`. -/
theorem classify_no_guard_counterexample :
    updateBMI 22 0 = ⟨0, 0, Category.Underweight⟩ ∧
    classifyGuarded 22 0 = Except.error ClassifyError.InvalidInput := by
  constructor
  · with_unfolding_all decide
  · rfl

/-- C9 (amended): `updateBMI` performs no `height ≤ 0` guard and has no error
path; instead the caller contract holds — the classifier only runs after a
`Stable` verdict, which forces `height ≥ 100`, so the displayed integer
height is positive and the guarded classifier agrees with the unguarded
code on every such call. -/
theorem classify_caller_guarantee (t : StabilityTracker) (w h : ℚ)
    (hs : (loopStep t w h).2 = Verdict.Stable) :
    100 ≤ h ∧ 0 < ⌊h⌋ ∧
    classifyGuarded ⌊w⌋ ⌊h⌋ = Except.ok (updateBMI ⌊w⌋ ⌊h⌋) := by
  have hvalid : ¬(w < 10 ∨ h < 100) := by
    intro habs
    rw [loopStep_of_absent t w h habs] at hs
    simp at hs
  push_neg at hvalid
  have hh : 100 ≤ h := hvalid.2
  have hfl : (1 : ℤ) ≤ ⌊h⌋ := by
    rw [Int.le_floor]
    push_cast
    linarith
  refine ⟨hh, by omega, ?_⟩
  unfold classifyGuarded
  rw [if_neg (by omega)]

/-- Witness for the amended C9: a tracker one poll short of the threshold fed
its stored sample reaches `Stable`, and the guarded classifier agrees with
the code there. -/
theorem classify_caller_guarantee_witness :
    (loopStep ⟨40, 150, 4, false⟩ 40 150).2 = Verdict.Stable ∧
    (100 ≤ (150 : ℚ) ∧ 0 < ⌊(150 : ℚ)⌋ ∧
     classifyGuarded ⌊(40 : ℚ)⌋ ⌊(150 : ℚ)⌋ =
       Except.ok (updateBMI ⌊(40 : ℚ)⌋ ⌊(150 : ℚ)⌋)) :=
  ⟨by with_unfolding_all decide,
   classify_caller_guarantee ⟨40, 150, 4, false⟩ 40 150
     (by with_unfolding_all decide)⟩

end BmiMeter
